import Mathlib

/-!
Verification of the upload/submission orchestrator of
`src/web/src/components/ClimateMapApp.tsx` (mapa-clima-cam).

Shallow embedding: files are abstract numeric identifiers; object URLs
(`URL.createObjectURL` results) are numeric handles allocated from a
fresh-handle counter `nextUrl`; the observable side effects (`fetch`,
`URL.createObjectURL`, `URL.revokeObjectURL`) are recorded in an event
list.  The asynchronous `handleProcess` is split into the synchronous
prefix (lines 174-189 of the source, producing `inFlightState`) and the
settlement of the awaited response (`settle`, lines 191-209); the
settlement reads the component state captured by the closure at
invocation time, exactly as the React closure does.  UI-level actions
(`uiStep`) add the button `disabled` guard of line 290.
-/

namespace ClimateMap

/-- The `useState` cells of the `ClimateMapApp` component (lines 154-160):
`pdf`, `shp` are the two file slots, `isProcessing` the in-flight flag,
`resultImage` the currently displayed object URL, `errorDetails` the
recorded error message, `backendUrl` the runtime-editable base URL.
`nextUrl` is the model's fresh-handle counter for `URL.createObjectURL`. -/
structure AppState where
  pdf : Option Nat
  shp : Option Nat
  isProcessing : Bool
  resultImage : Option Nat
  errorDetails : Option String
  backendUrl : String
  nextUrl : Nat
  deriving DecidableEq

/-- Observable side effects of the orchestrator: the network request,
object-URL creation and object-URL revocation. -/
inductive Event where
  | fetchCall (endpoint : String)
  | createURL (handle : Nat)
  | revokeURL (handle : Nat)
  deriving DecidableEq

/-- Body of a non-2xx response: either it parses as JSON (with an optional
`detail` string field), or `response.json()` rejects. -/
inductive ErrBody where
  | json (detail : Option String)
  | unparseable
  deriving DecidableEq

/-- Settlement of the awaited `fetch`: a 2xx response with an image blob,
a non-2xx response (with its body and `statusText`), or a transport-level
rejection carrying a message. -/
inductive Outcome where
  | success
  | httpError (body : ErrBody) (statusText : String)
  | networkError (msg : String)
  deriving DecidableEq

/-- Line 192-193 of the source:
`errJson = await response.json().catch(() => ({detail: response.statusText}))`
then `new Error(errJson.detail || "Error processing files")`.
JS `||` falls through on a missing or empty `detail` / `statusText`. -/
def errMessage (body : ErrBody) (statusText : String) : String :=
  match body with
  | ErrBody.json (some d) => if d = "" then "Error processing files" else d
  | ErrBody.json none => "Error processing files"
  | ErrBody.unparseable =>
      if statusText = "" then "Error processing files" else statusText

/-- Line 183: `baseUrl.replace(/\/$/, "")` — the regex matches a single
trailing slash, so at most one trailing `/` is removed. -/
def stripTrailingSlash (s : String) : String :=
  if s.data.getLast? = some '/' then String.mk s.data.dropLast else s

/-- Line 183: `` endpoint = `${baseUrl.replace(/\/$/, "")}/api/procesar/` ``. -/
def mkEndpoint (baseUrl : String) : String :=
  stripTrailingSlash baseUrl ++ "/api/procesar/"

/-- Line 182: `backendUrl || window.location.origin` (empty string is falsy). -/
def effectiveBase (origin : String) (s : AppState) : String :=
  if s.backendUrl = "" then origin else s.backendUrl

/-- The endpoint targeted by a submission started in state `s`. -/
def endpointOf (origin : String) (s : AppState) : String :=
  mkEndpoint (effectiveBase origin s)

/-- Lines 174-176: `setIsProcessing(true); setResultImage(null);
setErrorDetails(null)` — the component state for the whole in-flight
period, established before the `fetch` is issued. -/
def inFlightState (s : AppState) : AppState :=
  { s with isProcessing := true, resultImage := none, errorDetails := none }

/-- Line 206: `` setErrorDetails(`${err.message} (URL: ${endpoint})`) ``. -/
def recordedError (msg endpoint : String) : String :=
  msg ++ " (URL: " ++ endpoint ++ ")"

/-- Lines 191-209: settlement of the awaited response.  `captured` is the
component state the closure captured when `handleProcess` was invoked:
line 200's `if (resultImage)` reads that captured value, not the current
state.  On success (lines 196-204): create the new object URL, revoke the
captured previous one if any, store the new URL.  On error (lines
191-193, 205-206): record the message.  Line 208 (`finally`) clears
`isProcessing` in every branch. -/
def settle (origin : String) (captured : AppState) (o : Outcome) :
    AppState × List Event :=
  let sIn := inFlightState captured
  match o with
  | Outcome.success =>
      let newUrl := captured.nextUrl
      let revokes := match captured.resultImage with
        | some old => [Event.revokeURL old]
        | none => []
      ({ sIn with isProcessing := false, resultImage := some newUrl,
                  nextUrl := captured.nextUrl + 1 },
       Event.createURL newUrl :: revokes)
  | Outcome.httpError body st =>
      ({ sIn with isProcessing := false,
                  errorDetails := some (recordedError (errMessage body st)
                    (endpointOf origin captured)) }, [])
  | Outcome.networkError m =>
      ({ sIn with isProcessing := false,
                  errorDetails := some (recordedError m
                    (endpointOf origin captured)) }, [])

/-- Line 172: `if (!pdf || !shp) return` — `handleProcess`'s own guard. -/
def readyToSubmit (s : AppState) : Bool :=
  s.pdf.isSome && s.shp.isSome

/-- Lines 171-210: `handleProcess`, one whole submission attempt from
invocation to settlement.  Note the guard checks only the two slots —
`isProcessing` is NOT consulted here. -/
def handleProcess (origin : String) (s : AppState) (o : Outcome) :
    AppState × List Event :=
  if readyToSubmit s then
    let r := settle origin s o
    (r.1, Event.fetchCall (endpointOf origin s) :: r.2)
  else (s, [])

/-- Lines 212-221: `handleReset` — revoke the current object URL if any,
then clear both slots, the result and the error message. -/
def handleReset (s : AppState) : AppState × List Event :=
  ({ s with pdf := none, shp := none, resultImage := none,
            errorDetails := none },
   match s.resultImage with
   | some h => [Event.revokeURL h]
   | none => [])

/-- Local state of one `Dropzone` (line 61): the dragging display flag. -/
structure DropzoneState where
  isDragging : Bool
  deriving DecidableEq

/-- Lines 73-81: `handleDrop` — clear the dragging flag, then forward the
first file of the drop payload (if any) to `onFileSelect`; further files
are ignored; an empty payload forwards nothing. -/
def handleDrop (_s : DropzoneState) (files : List Nat) :
    DropzoneState × Option Nat :=
  (⟨false⟩, files.head?)

/-- UI events reaching the orchestrator: selecting / removing a file in
either slot (removal passes `none`, line 122), clicking the submit
button (with the eventual outcome of the request), clicking reset. -/
inductive Action where
  | selectPdf (f : Option Nat)
  | selectShp (f : Option Nat)
  | clickSubmit (o : Outcome)
  | clickReset
  deriving DecidableEq

/-- One UI event.  A submit click reaches `handleProcess` only when the
button is enabled: line 290 `disabled={!pdf || !shp || isProcessing}`. -/
def uiStep (origin : String) (s : AppState) (a : Action) :
    AppState × List Event :=
  match a with
  | Action.selectPdf f => ({ s with pdf := f }, [])
  | Action.selectShp f => ({ s with shp := f }, [])
  | Action.clickSubmit o =>
      if s.pdf.isSome && s.shp.isSome && !s.isProcessing then
        handleProcess origin s o
      else (s, [])
  | Action.clickReset => handleReset s

/-- Run a sequence of UI events, concatenating the emitted events. -/
def run (origin : String) (s : AppState) : List Action → AppState × List Event
  | [] => (s, [])
  | a :: rest =>
      let r1 := uiStep origin s a
      let r2 := run origin r1.1 rest
      (r2.1, r1.2 ++ r2.2)

/-- Does this event create the object URL `h`? -/
def isCreateOf (h : Nat) : Event → Bool
  | Event.createURL k => k == h
  | _ => false

/-- Does this event revoke the object URL `h`? -/
def isRevokeOf (h : Nat) : Event → Bool
  | Event.revokeURL k => k == h
  | _ => false

/-- Is this event a network request? -/
def isFetch : Event → Bool
  | Event.fetchCall _ => true
  | _ => false

/-- Number of creations of handle `h` in an event list. -/
def createCount (h : Nat) (evs : List Event) : Nat :=
  (evs.filter (isCreateOf h)).length

/-- Number of revocations of handle `h` in an event list. -/
def revokeCount (h : Nat) (evs : List Event) : Nat :=
  (evs.filter (isRevokeOf h)).length

/-- Number of network requests in an event list. -/
def fetchCount (evs : List Event) : Nat :=
  (evs.filter isFetch).length

/-- `sub` occurs as a contiguous substring of `m`. -/
def strContains (m sub : String) : Prop :=
  sub.data <:+: m.data

/-- The initial component state: both slots empty, not processing, no
result, no error, a configured backend URL. -/
def initState : AppState :=
  { pdf := none, shp := none, isProcessing := false, resultImage := none,
    errorDetails := none, backendUrl := "http://x", nextUrl := 0 }

/-- A state with both slots populated and a submission already in flight. -/
def cexInFlight : AppState :=
  { pdf := some 10, shp := some 11, isProcessing := true,
    resultImage := none, errorDetails := none, backendUrl := "http://x",
    nextUrl := 0 }

/-- A ready state holding a previously created result artifact. -/
def readyWithResult : AppState :=
  { pdf := some 1, shp := some 2, isProcessing := false,
    resultImage := some 5, errorDetails := none, backendUrl := "http://x",
    nextUrl := 6 }

/-- UI trace: select both files, run successfully (creates handle 0),
then resubmit and have the request fail. -/
def leakTrace : List Action :=
  [Action.selectPdf (some 10), Action.selectShp (some 11),
   Action.clickSubmit Outcome.success,
   Action.clickSubmit (Outcome.httpError (ErrBody.json (some "invalid geometry"))
     "Internal Server Error")]

/-! ## Helper lemmas -/

/-- `String.append` concatenates the underlying character lists. -/
theorem string_data_append (s t : String) : (s ++ t).data = s.data ++ t.data :=
  rfl

/-- Strings with the same character list are equal. -/
theorem string_eq_of_data {a b : String} (h : a.data = b.data) : a = b := by
  cases a; cases b; exact congrArg String.mk h

/-- A recorded error message contains the underlying message text. -/
theorem strContains_msg_part (a b : String) :
    strContains (recordedError a b) a := by
  refine ⟨[], " (URL: ".data ++ (b.data ++ ")".data), ?_⟩
  simp [recordedError, string_data_append, List.append_assoc]

/-- A recorded error message contains the attempted endpoint URL. -/
theorem strContains_url_part (a b : String) :
    strContains (recordedError a b) b := by
  refine ⟨a.data ++ " (URL: ".data, ")".data, ?_⟩
  simp [recordedError, string_data_append, List.append_assoc]

/-- Every string contains the empty string. -/
theorem strContains_empty (m : String) : strContains m "" :=
  ⟨[], m.data, rfl⟩

/-- One UI step never revokes a handle that is below the fresh-handle
counter and is not the currently stored result: revocations only target
the stored (or closure-captured) `resultImage`, and newly created handles
are taken from the strictly increasing counter. -/
theorem uiStep_no_revoke (origin : String) (h : Nat) (s : AppState)
    (a : Action) (hlt : h < s.nextUrl)
    (hres : ∀ k, s.resultImage = some k → k ≠ h) :
    revokeCount h (uiStep origin s a).2 = 0 ∧
    h < (uiStep origin s a).1.nextUrl ∧
    (∀ k, (uiStep origin s a).1.resultImage = some k → k ≠ h) := by
  cases a with
  | selectPdf f => exact ⟨rfl, hlt, fun k hk => hres k hk⟩
  | selectShp f => exact ⟨rfl, hlt, fun k hk => hres k hk⟩
  | clickReset =>
      refine ⟨?_, hlt, by intro k hk; simp [uiStep, handleReset] at hk⟩
      cases hr : s.resultImage with
      | none => simp [uiStep, handleReset, hr, revokeCount]
      | some k =>
          have hbe : (k == h) = false := by simpa using hres k hr
          simp [uiStep, handleReset, hr, revokeCount, isRevokeOf, List.filter, hbe]
  | clickSubmit o =>
      by_cases hg : (s.pdf.isSome && s.shp.isSome && !s.isProcessing) = true
      · have hg' := hg
        simp only [Bool.and_eq_true] at hg'
        have hready : readyToSubmit s = true := by
          simp only [readyToSubmit, Bool.and_eq_true]
          exact ⟨hg'.1.1, hg'.1.2⟩
        have hstep : uiStep origin s (Action.clickSubmit o) =
            handleProcess origin s o := by
          simp [uiStep, hg]
        rw [hstep]
        cases o with
        | success =>
            cases hr : s.resultImage with
            | none =>
                have hproc : handleProcess origin s Outcome.success =
                    ({ pdf := s.pdf, shp := s.shp, isProcessing := false,
                       resultImage := some s.nextUrl, errorDetails := none,
                       backendUrl := s.backendUrl, nextUrl := s.nextUrl + 1 },
                     [Event.fetchCall (endpointOf origin s),
                      Event.createURL s.nextUrl]) := by
                  simp [handleProcess, hready, settle, inFlightState, hr]
                rw [hproc]
                refine ⟨by simp [revokeCount, isRevokeOf, List.filter],
                  Nat.lt_succ_of_lt hlt, ?_⟩
                intro k hk
                simp at hk
                omega
            | some old =>
                have hbe : (old == h) = false := by simpa using hres old hr
                have hproc : handleProcess origin s Outcome.success =
                    ({ pdf := s.pdf, shp := s.shp, isProcessing := false,
                       resultImage := some s.nextUrl, errorDetails := none,
                       backendUrl := s.backendUrl, nextUrl := s.nextUrl + 1 },
                     [Event.fetchCall (endpointOf origin s),
                      Event.createURL s.nextUrl, Event.revokeURL old]) := by
                  simp [handleProcess, hready, settle, inFlightState, hr]
                rw [hproc]
                refine ⟨by simp [revokeCount, isRevokeOf, List.filter, hbe],
                  Nat.lt_succ_of_lt hlt, ?_⟩
                intro k hk
                simp at hk
                omega
        | httpError body st =>
            have hproc : handleProcess origin s (Outcome.httpError body st) =
                ({ pdf := s.pdf, shp := s.shp, isProcessing := false,
                   resultImage := none,
                   errorDetails := some (recordedError (errMessage body st)
                     (endpointOf origin s)),
                   backendUrl := s.backendUrl, nextUrl := s.nextUrl },
                 [Event.fetchCall (endpointOf origin s)]) := by
              simp [handleProcess, hready, settle, inFlightState]
            rw [hproc]
            refine ⟨by simp [revokeCount, isRevokeOf, List.filter], hlt, ?_⟩
            intro k hk
            simp at hk
        | networkError m =>
            have hproc : handleProcess origin s (Outcome.networkError m) =
                ({ pdf := s.pdf, shp := s.shp, isProcessing := false,
                   resultImage := none,
                   errorDetails := some (recordedError m (endpointOf origin s)),
                   backendUrl := s.backendUrl, nextUrl := s.nextUrl },
                 [Event.fetchCall (endpointOf origin s)]) := by
              simp [handleProcess, hready, settle, inFlightState]
            rw [hproc]
            refine ⟨by simp [revokeCount, isRevokeOf, List.filter], hlt, ?_⟩
            intro k hk
            simp at hk
      · have hstep : uiStep origin s (Action.clickSubmit o) = (s, []) := by
          simp [uiStep, hg]
        rw [hstep]
        exact ⟨rfl, hlt, hres⟩

/-- No continuation of a run ever revokes a handle that is below the
fresh-handle counter and not the currently stored result. -/
theorem run_no_revoke (origin : String) (h : Nat) :
    ∀ (acts : List Action) (s : AppState), h < s.nextUrl →
      (∀ k, s.resultImage = some k → k ≠ h) →
      revokeCount h (run origin s acts).2 = 0
  | [], _, _, _ => rfl
  | a :: rest, s, hlt, hres => by
      obtain ⟨h1, h2, h3⟩ := uiStep_no_revoke origin h s a hlt hres
      have ih := run_no_revoke origin h rest (uiStep origin s a).1 h2 h3
      simp only [run, revokeCount, List.filter_append, List.length_append] at *
      omega

/-! ## Claim theorems -/

/-- Claim C1, counterexample: `handleProcess` itself does NOT check
`isProcessing`.  In a state with both slots populated and a submission
already in flight, invoking `handleProcess` directly issues a second
network request and changes the state, contrary to the claim as stated. -/
theorem handleProcess_ignores_inflight_flag :
    cexInFlight.isProcessing = true ∧
    fetchCount (handleProcess "http://o" cexInFlight Outcome.success).2 = 1 ∧
    (handleProcess "http://o" cexInFlight Outcome.success).1 ≠ cexInFlight := by
  refine ⟨rfl, by decide, by decide⟩

/-- Claim C1, amended: submission through the UI is a no-op while a
submission is in flight, because the submit button's `disabled` guard
(line 290) includes `isProcessing`: a submit click in any state with
`isProcessing = true` issues no network call and leaves the state
unchanged. -/
theorem inflight_submit_click_is_noop (origin : String) (s : AppState)
    (o : Outcome) (h : s.isProcessing = true) :
    uiStep origin s (Action.clickSubmit o) = (s, []) := by
  simp [uiStep, h]

/-- Witness for `inflight_submit_click_is_noop` at a concrete in-flight
state. -/
theorem inflight_submit_click_is_noop_witness :
    cexInFlight.isProcessing = true ∧
    uiStep "http://o" cexInFlight (Action.clickSubmit Outcome.success) =
      (cexInFlight, []) :=
  ⟨rfl, inflight_submit_click_is_noop "http://o" cexInFlight Outcome.success rfl⟩

/-- Claim C2: on every successful submission exactly one new object URL is
created, the new handle becomes the live result, and when a prior artifact
existed the emitted event list is exactly `fetch, create(new), revoke(old)`
— the release happens after the creation, never before, and exactly one
artifact is live after the transition. -/
theorem success_creates_then_releases (origin : String) (s : AppState)
    (h : readyToSubmit s = true) :
    createCount s.nextUrl (handleProcess origin s Outcome.success).2 = 1 ∧
    (handleProcess origin s Outcome.success).1.resultImage = some s.nextUrl ∧
    (s.resultImage = none →
      (handleProcess origin s Outcome.success).2 =
        [Event.fetchCall (endpointOf origin s), Event.createURL s.nextUrl]) ∧
    (∀ old, s.resultImage = some old →
      (handleProcess origin s Outcome.success).2 =
        [Event.fetchCall (endpointOf origin s), Event.createURL s.nextUrl,
         Event.revokeURL old]) := by
  refine ⟨?_, ?_, ?_, ?_⟩
  · cases hres : s.resultImage <;>
      simp [handleProcess, h, settle, inFlightState, createCount, isCreateOf, hres,
        List.filter]
  · simp [handleProcess, h, settle, inFlightState]
  · intro hres; simp [handleProcess, h, settle, inFlightState, hres]
  · intro old hres; simp [handleProcess, h, settle, inFlightState, hres]

/-- Witness for `success_creates_then_releases` at a ready state holding a
previous artifact (handle 5): creation of handle 6 precedes the revocation
of handle 5. -/
theorem success_creates_then_releases_witness :
    readyToSubmit readyWithResult = true ∧
    (handleProcess "http://o" readyWithResult Outcome.success).2 =
      [Event.fetchCall (endpointOf "http://o" readyWithResult),
       Event.createURL 6, Event.revokeURL 5] :=
  ⟨by decide,
   (success_creates_then_releases "http://o" readyWithResult (by decide)).2.2.2
     5 rfl⟩

/-- Claim C3: the UI trace `leakTrace` (select both files, one successful
run creating handle 0, then a failed re-run) creates handle 0 exactly once
and never revokes it — neither within the trace nor in any continuation —
because the failed re-run started by clearing `resultImage` while the
revocation lives only in the success path.  The created object URL is
leaked, contradicting the claimed release-exactly-once invariant. -/
theorem leaked_handle_never_revoked :
    createCount 0 (run "http://o" initState leakTrace).2 = 1 ∧
    revokeCount 0 (run "http://o" initState leakTrace).2 = 0 ∧
    (run "http://o" initState leakTrace).1.resultImage = none ∧
    (∀ more : List Action,
      revokeCount 0 (run "http://o" (run "http://o" initState leakTrace).1 more).2
        = 0) := by
  refine ⟨by decide, by decide, by decide, ?_⟩
  intro more
  have hnone : (run "http://o" initState leakTrace).1.resultImage = none := by
    decide
  have hnext : 0 < (run "http://o" initState leakTrace).1.nextUrl := by decide
  exact run_no_revoke "http://o" 0 more _ hnext
    (fun k hk => absurd (hnone.symm.trans hk) (by simp))

/-- Claim C4: the submit-ready condition holds iff both slots hold a file;
populating the two slots in either order yields the same state; and
`handleProcess` with either slot empty performs nothing (no state change,
no event). -/
theorem ready_iff_both_slots (origin : String) (s : AppState) (o : Outcome)
    (f g : Option Nat) :
    (readyToSubmit s = true ↔ (s.pdf.isSome = true ∧ s.shp.isSome = true)) ∧
    (run origin s [Action.selectPdf f, Action.selectShp g]).1 =
      (run origin s [Action.selectShp g, Action.selectPdf f]).1 ∧
    (s.pdf = none ∨ s.shp = none → handleProcess origin s o = (s, [])) := by
  refine ⟨by simp [readyToSubmit], by simp [run, uiStep], ?_⟩
  intro h
  rcases h with h | h <;> simp [handleProcess, readyToSubmit, h]

/-- Witness for `ready_iff_both_slots`: from the empty initial state a
submission attempt performs nothing. -/
theorem ready_iff_both_slots_witness :
    (initState.pdf = none ∨ initState.shp = none) ∧
    handleProcess "http://o" initState Outcome.success = (initState, []) :=
  ⟨Or.inl rfl,
   (ready_iff_both_slots "http://o" initState Outcome.success none none).2.2
     (Or.inl rfl)⟩

/-- Claim C5: after a failed submission the recorded error message
contains the server's `detail` field when the body parsed as JSON with a
`detail` present, the HTTP status text when the body was unparseable, and
the transport failure message on a network error — and in every case the
attempted endpoint URL. -/
theorem failure_message_contents (origin : String) (s : AppState)
    (h : readyToSubmit s = true) :
    (∀ d st, ∃ e,
      (handleProcess origin s
        (Outcome.httpError (ErrBody.json (some d)) st)).1.errorDetails
        = some e ∧ strContains e d ∧ strContains e (endpointOf origin s)) ∧
    (∀ st, ∃ e,
      (handleProcess origin s
        (Outcome.httpError ErrBody.unparseable st)).1.errorDetails
        = some e ∧ strContains e st ∧ strContains e (endpointOf origin s)) ∧
    (∀ m, ∃ e,
      (handleProcess origin s (Outcome.networkError m)).1.errorDetails
        = some e ∧ strContains e m ∧ strContains e (endpointOf origin s)) := by
  refine ⟨?_, ?_, ?_⟩
  · intro d st
    refine ⟨recordedError (errMessage (ErrBody.json (some d)) st)
      (endpointOf origin s), ?_, ?_, ?_⟩
    · simp [handleProcess, h, settle, inFlightState]
    · by_cases hd : d = ""
      · subst hd; exact strContains_empty _
      · simpa [errMessage, hd] using
          strContains_msg_part d (endpointOf origin s)
    · exact strContains_url_part _ _
  · intro st
    refine ⟨recordedError (errMessage ErrBody.unparseable st)
      (endpointOf origin s), ?_, ?_, ?_⟩
    · simp [handleProcess, h, settle, inFlightState]
    · by_cases hst : st = ""
      · subst hst; exact strContains_empty _
      · simpa [errMessage, hst] using
          strContains_msg_part st (endpointOf origin s)
    · exact strContains_url_part _ _
  · intro m
    exact ⟨recordedError m (endpointOf origin s),
      by simp [handleProcess, h, settle, inFlightState],
      strContains_msg_part _ _, strContains_url_part _ _⟩

/-- Witness for `failure_message_contents`: a 500 with body
`{"detail": "invalid geometry"}` records a message containing both the
detail and the endpoint. -/
theorem failure_message_contents_witness :
    readyToSubmit readyWithResult = true ∧
    (∃ e, (handleProcess "http://o" readyWithResult
        (Outcome.httpError (ErrBody.json (some "invalid geometry"))
          "Internal Server Error")).1.errorDetails = some e ∧
      strContains e "invalid geometry" ∧
      strContains e (endpointOf "http://o" readyWithResult)) :=
  ⟨by decide,
   (failure_message_contents "http://o" readyWithResult (by decide)).1
     "invalid geometry" "Internal Server Error"⟩

/-- Claim C6: after `handleReset`, from any state, both slots are empty,
the error message and the displayed result are absent, and a previously
live artifact is revoked exactly once (no revocation otherwise). -/
theorem reset_clears_everything (s : AppState) :
    (handleReset s).1.pdf = none ∧ (handleReset s).1.shp = none ∧
    (handleReset s).1.errorDetails = none ∧
    (handleReset s).1.resultImage = none ∧
    (∀ h, s.resultImage = some h → revokeCount h (handleReset s).2 = 1) ∧
    (s.resultImage = none → (handleReset s).2 = []) := by
  refine ⟨rfl, rfl, rfl, rfl, ?_, ?_⟩
  · intro h hres
    simp [handleReset, hres, revokeCount, isRevokeOf, List.filter]
  · intro hres
    simp [handleReset, hres]

/-- Witness for `reset_clears_everything` at a state holding artifact 5. -/
theorem reset_clears_everything_witness :
    readyWithResult.resultImage = some 5 ∧
    revokeCount 5 (handleReset readyWithResult).2 = 1 :=
  ⟨rfl, (reset_clears_everything readyWithResult).2.2.2.2.1 5 rfl⟩

/-- Claim C7: the endpoint assembled from base URL `http://x/` is
`http://x/api/procesar/` with no doubled separator, and a base with no
trailing slash yields the same endpoint. -/
theorem endpoint_no_doubled_separator :
    mkEndpoint "http://x/" = "http://x/api/procesar/" ∧
    mkEndpoint "http://x" = "http://x/api/procesar/" := by
  exact ⟨by decide, by decide⟩

/-- Claim C8: a drop clears the dragging flag and forwards exactly the
head of the payload: the first file when the payload is non-empty, nothing
when it is empty; further files are ignored. -/
theorem drop_forwards_first_file (s : DropzoneState) (files : List Nat) :
    (handleDrop s files).1.isDragging = false ∧
    (handleDrop s files).2 = files.head? ∧
    (∀ f rest, files = f :: rest → (handleDrop s files).2 = some f) ∧
    (files = [] → (handleDrop s files).2 = none) := by
  refine ⟨rfl, rfl, ?_, ?_⟩
  · intro f rest hf; subst hf; rfl
  · intro hf; subst hf; rfl

/-- Witness for `drop_forwards_first_file`: dropping three files forwards
only the first. -/
theorem drop_forwards_first_file_witness :
    ([3, 4, 5] : List Nat) = 3 :: [4, 5] ∧
    (handleDrop ⟨true⟩ [3, 4, 5]).2 = some 3 :=
  ⟨rfl, (drop_forwards_first_file ⟨true⟩ [3, 4, 5]).2.2.1 3 [4, 5] rfl⟩

/-- Claim C9: starting a submission clears both the displayed result and
the error message before the network call is issued (the fetch event is
the head of the emitted events and the in-flight state holds neither), a
failed settlement leaves the result absent (the prior artifact is not
restored), and a successful settlement attaches the freshly created
handle. -/
theorem submit_clears_result_and_error (origin : String) (s : AppState)
    (h : readyToSubmit s = true) :
    (inFlightState s).resultImage = none ∧
    (inFlightState s).errorDetails = none ∧
    (inFlightState s).isProcessing = true ∧
    (∀ o, (handleProcess origin s o).2.head? =
      some (Event.fetchCall (endpointOf origin s))) ∧
    (∀ body st,
      (handleProcess origin s (Outcome.httpError body st)).1.resultImage
        = none) ∧
    (∀ m, (handleProcess origin s (Outcome.networkError m)).1.resultImage
      = none) ∧
    (handleProcess origin s Outcome.success).1.resultImage = some s.nextUrl := by
  refine ⟨rfl, rfl, rfl, ?_, ?_, ?_, ?_⟩
  · intro o; simp [handleProcess, h]
  · intro body st; simp [handleProcess, h, settle, inFlightState]
  · intro m; simp [handleProcess, h, settle, inFlightState]
  · simp [handleProcess, h, settle, inFlightState]

/-- Witness for `submit_clears_result_and_error`: starting a submission in
a state displaying artifact 5 clears both the result and the error. -/
theorem submit_clears_result_and_error_witness :
    readyToSubmit readyWithResult = true ∧
    (inFlightState readyWithResult).resultImage = none ∧
    (inFlightState readyWithResult).errorDetails = none :=
  ⟨by decide,
   (submit_clears_result_and_error "http://o" readyWithResult (by decide)).1,
   (submit_clears_result_and_error "http://o" readyWithResult (by decide)).2.1⟩

/-- Claim C10: the trailing-separator stripping removes at most one
trailing slash — `stripTrailingSlash (b ++ "/") = b` for every `b`, so a
base ending in two slashes keeps one of them and the assembled endpoint
contains a doubled separator, e.g. `http://x//api/procesar/`. -/
theorem strip_removes_at_most_one_slash (b : String) :
    stripTrailingSlash (b ++ "/") = b ∧
    stripTrailingSlash (b ++ "//") = b ++ "/" ∧
    mkEndpoint (b ++ "//") = (b ++ "/") ++ "/api/procesar/" ∧
    mkEndpoint "http://x//" = "http://x//api/procesar/" ∧
    strContains (mkEndpoint "http://x//") "//" := by
  have h1 : stripTrailingSlash (b ++ "/") = b := by
    cases b with
    | mk l => simp [stripTrailingSlash, string_data_append]
  have h2 : stripTrailingSlash (b ++ "//") = b ++ "/" := by
    cases b with
    | mk l =>
        have hd : (String.mk l ++ "//").data = (l ++ ['/']) ++ ['/'] := by
          simp [string_data_append]
        simp [stripTrailingSlash, hd]
        exact string_eq_of_data (by simp [string_data_append])
  refine ⟨h1, h2, by simp [mkEndpoint, h2], by decide, ?_⟩
  exact ⟨['h', 't', 't', 'p', ':'], "x//api/procesar/".data, by decide⟩

end ClimateMap
